import Mathlib

/-!
Verification development for the wardbuddy repository.

The embedding covers `src/wardbuddy/learning_interface.py` (the class
`LearningInterface` with its `process_input` and `update_preferences`
methods and the `clear` / `retry` click handlers of `create_interface`)
and `src/app.py` (the startup environment-variable check).

Conventions of the embedding:
- Python strings are Lean `String`s; Python floats are rationals `ℚ`.
- A chat turn dictionary with keys `role` and `content` is the structure
  `Turn`; a history list is `List Turn`; a history parameter that may be
  Python `None` is `Option (List Turn)`.
- The effectful collaborators that live outside `src/`
  (`ClinicalTutor.update_feedback_preferences`, the awaited
  `ClinicalTutor.process_interaction`, and `format_response`) are passed
  in as an oracle `TurnEffects` whose fields give each step's outcome for
  the current turn: `Except.error` models the step raising an exception,
  `Except.ok` models normal return with the returned value.
- The tutor's mutable state (its stored preference set, plus the trace of
  messages sent to the backend, kept so that "no backend call was made"
  is expressible) is threaded explicitly as `TutorSt`.
- Python exception control flow becomes `Except Unit`: `process_input_body`
  is the `try` block, `except_branch` the handler, `process_input` the
  whole method.
-/

namespace WardBuddy

/-- Role tag of one chat message, the `role` key of the message dicts
built in `process_input`. -/
inductive Role where
  | user
  | assistant
deriving DecidableEq, Repr

/-- One chat message dict with keys `role` and `content`. -/
structure Turn where
  role : Role
  content : String
deriving DecidableEq, Repr

/-- A session history: the list bound to `gr.State([])` and passed to
`process_input` as `history`. -/
abbrev History := List Turn

/-- Characters removed by Python `str.strip()` with no argument:
space, tab, newline, carriage return, vertical tab, form feed. -/
def isPySpace (c : Char) : Bool :=
  c = ' ' || c = '\t' || c = '\n' || c = '\r' || c = Char.ofNat 11 || c = Char.ofNat 12

/-- Python `message.strip()`: drop leading and trailing whitespace. -/
def pyStrip (s : String) : String :=
  String.mk (((s.data.dropWhile isPySpace).reverse.dropWhile isPySpace).reverse)

/-- A preference dictionary: insertion-ordered string-keyed float mapping,
as built by the Python dict literals. -/
abbrev PrefDict := List (String × ℚ)

/-- Key list of a preference dictionary. -/
def keysOf (d : PrefDict) : List String := d.map Prod.fst

/-- The four preference keys, in the order the source dict literals list them. -/
def preference_keys : List String :=
  ["clinical_reasoning", "medical_knowledge", "presentation_skills",
   "differential_building"]

/-- The `feedback_focus` dict literal built inside `process_input`
(learning_interface.py lines 70-75). -/
def feedback_focus (cr mk ps db : ℚ) : PrefDict :=
  [("clinical_reasoning", cr), ("medical_knowledge", mk),
   ("presentation_skills", ps), ("differential_building", db)]

/-- Modelled from the spec: the preference set stored by `ClinicalTutor`
at construction (the file `wardbuddy/clinical_tutor.py` is not in the
repository snapshot). The spec says the set is "created with defaults at
Tutor construction", each of the four weights "a real number bounded to
[0.5, 2.0], default 1.0". -/
def default_preferences : PrefDict :=
  [("clinical_reasoning", 1), ("medical_knowledge", 1),
   ("presentation_skills", 1), ("differential_building", 1)]

/-- Modelled from the spec: `ClinicalTutor.update_feedback_preferences`
(code not in the repository snapshot). The spec says the stored
preference set is "replaced wholesale (not merged) on every
preference-update event". -/
def update_feedback_preferences (_stored new : PrefDict) : PrefDict := new

/-- The tutor-side mutable state threaded through the interface methods:
the stored preference set, and the trace of messages for which an
outbound backend call was issued (so that "no call was made" is a
statement about the state). -/
structure TutorSt where
  prefs : PrefDict
  calls : List String
deriving DecidableEq, Repr

/-- Tutor state at construction: spec defaults, no calls issued. -/
def initTutorSt : TutorSt := ⟨default_preferences, []⟩

/-- Outcome oracle for the three effectful steps of one turn.
`prefUpdate` is the outcome of `self.tutor.update_feedback_preferences`,
`call` of `await self.tutor.process_interaction(message)` (carrying the
raw response on success), `fmt` of `format_response` applied to the raw
response. `Except.error ()` means the step raised an exception. -/
structure TurnEffects where
  prefUpdate : Except Unit Unit
  call : Except Unit String
  fmt : String → Except Unit String

/-- The fixed instructional text returned for empty input
(learning_interface.py line 67). -/
def instructionalMsg : String := "Please provide your case or question."

/-- The fixed generic error text of the `except` branch
(learning_interface.py line 98). -/
def genericErrorMsg : String := "An error occurred. Please try again."

/-- The `try` block of `process_input` (learning_interface.py lines
66-92): empty-message early return, preference update, backend call,
response formatting, history normalization and the two appends. The
first component is the tutor state reached when the block ends or the
exception escapes; `Except.error` is an escaping exception. -/
def process_input_body (eff : TurnEffects) (st : TutorSt) (message : String)
    (history : Option History) (cr mk ps db : ℚ) :
    TutorSt × Except Unit (Option History × String) :=
  if pyStrip message = "" then
    (st, Except.ok (history, instructionalMsg))
  else
    match eff.prefUpdate with
    | Except.error e => (st, Except.error e)
    | Except.ok _ =>
      let st1 : TutorSt := ⟨feedback_focus cr mk ps db, st.calls⟩
      let st2 : TutorSt := ⟨st1.prefs, st1.calls ++ [message]⟩
      match eff.call with
      | Except.error e => (st2, Except.error e)
      | Except.ok response =>
        match eff.fmt response with
        | Except.error e => (st2, Except.error e)
        | Except.ok formatted =>
          (st2, Except.ok (some (history.getD [] ++
            [⟨Role.user, message⟩, ⟨Role.assistant, formatted⟩]), ""))

/-- The `except Exception` handler of `process_input` (lines 94-98):
replace a `None` history by `[]` and return the generic error text. -/
def except_branch (history : Option History) : Option History × String :=
  (some (history.getD []), genericErrorMsg)

/-- `LearningInterface.process_input` as a whole: run the `try` block;
an escaping exception is caught by the handler. Returns the final tutor
state and the `(history, text)` pair the method returns. -/
def process_input (eff : TurnEffects) (st : TutorSt) (message : String)
    (history : Option History) (cr mk ps db : ℚ) :
    TutorSt × (Option History × String) :=
  match process_input_body eff st message history cr mk ps db with
  | (st2, Except.ok r) => (st2, r)
  | (st2, Except.error _) => (st2, except_branch history)

/-- `process_input` with its exception behaviour left visible: the value
is `Except.error` exactly when the call as a whole would propagate an
exception to its caller. The handler itself is exception-free, so every
branch is `Except.ok`. -/
def process_input_exc (eff : TurnEffects) (st : TutorSt) (message : String)
    (history : Option History) (cr mk ps db : ℚ) :
    Except Unit (TutorSt × (Option History × String)) :=
  match process_input_body eff st message history cr mk ps db with
  | (st2, Except.ok r) => Except.ok (st2, r)
  | (st2, Except.error _) => Except.ok (st2, except_branch history)

/-- `LearningInterface.update_preferences` (lines 100-127): build the
four-key dict, store it via the tutor, return it. -/
def update_preferences (st : TutorSt) (cr mk ps db : ℚ) : TutorSt × PrefDict :=
  let preferences : PrefDict :=
    [("clinical_reasoning", cr), ("medical_knowledge", mk),
     ("presentation_skills", ps), ("differential_building", db)]
  (⟨update_feedback_preferences st.prefs preferences, st.calls⟩, preferences)

/-- The `clear.click` handler `lambda: ([], "")` (lines 221-224): it
takes no inputs, so its result is independent of any prior state. -/
def clear_click : History × String := ([], "")

/-- The initial session history `gr.State([])` (line 205). -/
def initial_state : History := []

/-- The Gradio component values of one interface session: the displayed
`chatbot`, the `msg` textbox, and the `gr.State` list bound to `state`
(line 205) — the session history that `msg.submit` and `retry.click`
read as their input. -/
structure UiState where
  chatbot : History
  msg : String
  state : History
deriving DecidableEq, Repr

/-- Applying the `clear.click` wiring (lines 221-224): the handler's
two outputs are assigned to the components listed in `outputs=[chatbot,
msg]`; `state` is not among the outputs, so it keeps its value. -/
def clear_click_apply (s : UiState) : UiState :=
  ⟨clear_click.1, clear_click.2, s.state⟩

/-- The `retry.click` handler (lines 226-230):
`lambda history: (history[:-1], history[-1]["content"]) if history else (history, "")`. -/
def retry_click (history : History) : History × String :=
  if history.isEmpty then (history, "")
  else (history.dropLast, ((history.getLast?).map Turn.content).getD "")

/-- An environment: Python `os.getenv` as a partial map. -/
abbrev Env := String → Option String

/-- `required_vars` of app.py line 9. -/
def required_vars : List String := ["OPENROUTER_API_KEY", "API_URL"]

/-- Python truthiness test `not os.getenv(var)`: true when the variable
is unset (`None`) or set to the empty string. -/
def getenvFalsy (env : Env) (v : String) : Bool :=
  match env v with
  | none => true
  | some s => s = ""

/-- `missing_vars` of app.py line 10. -/
def missing_vars (env : Env) : List String :=
  required_vars.filter (fun v => getenvFalsy env v)

/-- Python `", ".join`. -/
def joinComma : List String → String
  | [] => ""
  | [v] => v
  | v :: vs => v ++ ", " ++ joinComma vs

/-- The startup check of app.py lines 9-12: raise `ValueError` with the
enumerated list when `missing_vars` is nonempty; the interface is only
constructed after this check passes. -/
def startup_check (env : Env) : Except String Unit :=
  match missing_vars env with
  | [] => Except.ok ()
  | ms => Except.error ("Missing required environment variables: " ++ joinComma ms)

/-- One interface-level operation that can touch the tutor's stored
preference set: a `process_input` turn, or an `update_preferences` call. -/
inductive Op where
  | procInput (eff : TurnEffects) (m : String) (h : Option History) (cr mk ps db : ℚ)
  | updPrefs (cr mk ps db : ℚ)

/-- Effect of one operation on the tutor state. -/
def opStep (st : TutorSt) : Op → TutorSt
  | Op.procInput eff m h cr mk ps db => (process_input eff st m h cr mk ps db).1
  | Op.updPrefs cr mk ps db => (update_preferences st cr mk ps db).1

/-- Tutor state after a sequence of operations from construction. -/
def runOps (ops : List Op) : TutorSt :=
  ops.foldl opStep initTutorSt

/-- Sample oracle: every step succeeds, the formatter is the identity. -/
def effOk : TurnEffects := ⟨Except.ok (), Except.ok "raw", fun s => Except.ok s⟩

/-- Sample oracle: the backend call raises. -/
def effFail : TurnEffects := ⟨Except.ok (), Except.error (), fun s => Except.ok s⟩

/-- A message whose characters are all Python whitespace strips to the
empty string, so the guard `not message.strip()` fires on it. -/
lemma pyStrip_eq_empty_of_all (m : String) (hm : m.data.all isPySpace = true) :
    pyStrip m = "" := by
  have h1 : m.data.dropWhile isPySpace = [] :=
    List.dropWhile_eq_nil_iff.mpr (fun x hx => List.all_eq_true.mp hm x hx)
  unfold pyStrip
  rw [h1]
  rfl

/-- Claim C1: on a history holding exactly one (user, assistant) pair the
retry handler does not behave as specified: it drops only the assistant
turn (leaving the unpaired user turn in the history) and returns the
assistant content rather than the user content; on the empty history it
is, as specified, a no-op returning empty content. -/
theorem retry_click_one_pair_bug :
    retry_click [⟨Role.user, "q"⟩, ⟨Role.assistant, "a"⟩] =
      ([⟨Role.user, "q"⟩], "a") ∧
    retry_click [⟨Role.user, "q"⟩, ⟨Role.assistant, "a"⟩] ≠ ([], "q") ∧
    retry_click [] = ([], "") := by
  refine ⟨rfl, ?_, rfl⟩
  decide

/-- Claim C2 counterexample: `update_preferences` with
`clinical_reasoning = 3` stores the value 3 in the preference set, and 3
lies outside [0.5, 2.0] — no clamping happens. -/
theorem update_preferences_stores_out_of_range :
    ∃ p ∈ (update_preferences initTutorSt 3 1 1 1).1.prefs,
      ¬ ((0.5 : ℚ) ≤ p.2 ∧ p.2 ≤ 2) := by
  refine ⟨("clinical_reasoning", 3), ?_, ?_⟩
  · simp [update_preferences, update_feedback_preferences]
  · norm_num

/-- Claim C2 amended: `update_preferences` stores and returns the four
weights verbatim, performing no clamping; hence whenever all four inputs
already lie within [0.5, 2.0] (as the UI sliders guarantee), every stored
value lies within [0.5, 2.0]. -/
theorem update_preferences_verbatim_in_range (st : TutorSt) (cr mk ps db : ℚ)
    (hcr : (0.5 : ℚ) ≤ cr ∧ cr ≤ 2) (hmk : (0.5 : ℚ) ≤ mk ∧ mk ≤ 2)
    (hps : (0.5 : ℚ) ≤ ps ∧ ps ≤ 2) (hdb : (0.5 : ℚ) ≤ db ∧ db ≤ 2) :
    (update_preferences st cr mk ps db).2 = feedback_focus cr mk ps db ∧
    (update_preferences st cr mk ps db).1.prefs = feedback_focus cr mk ps db ∧
    ∀ p ∈ (update_preferences st cr mk ps db).1.prefs,
      (0.5 : ℚ) ≤ p.2 ∧ p.2 ≤ 2 := by
  refine ⟨rfl, rfl, ?_⟩
  intro p hp
  have hcases : p = ("clinical_reasoning", cr) ∨ p = ("medical_knowledge", mk) ∨
      p = ("presentation_skills", ps) ∨ p = ("differential_building", db) := by
    simpa [update_preferences, update_feedback_preferences] using hp
  rcases hcases with rfl | rfl | rfl | rfl
  exacts [hcr, hmk, hps, hdb]

/-- Witness for the amended claim C2 at all weights set to 1. -/
theorem update_preferences_verbatim_in_range_witness :
    (update_preferences initTutorSt 1 1 1 1).2 = feedback_focus 1 1 1 1 ∧
    (update_preferences initTutorSt 1 1 1 1).1.prefs = feedback_focus 1 1 1 1 ∧
    ∀ p ∈ (update_preferences initTutorSt 1 1 1 1).1.prefs,
      (0.5 : ℚ) ≤ p.2 ∧ p.2 ≤ 2 :=
  update_preferences_verbatim_in_range initTutorSt 1 1 1 1
    (by norm_num) (by norm_num) (by norm_num) (by norm_num)

/-- Claim C3: clicking Clear on a session whose history state holds one
(user, assistant) pair clears the displayed chatbot and the textbox, but
the `gr.State` session history — the list the claim is about, which the
submit and retry handlers read — keeps the pair, so it is not the empty
sequence; and the next successful submit appends onto the surviving
pair, making the supposedly cleared turns reappear. -/
theorem clear_click_leaves_state :
    (clear_click_apply ⟨[⟨Role.user, "q"⟩, ⟨Role.assistant, "a"⟩], "",
        [⟨Role.user, "q"⟩, ⟨Role.assistant, "a"⟩]⟩).state =
      [⟨Role.user, "q"⟩, ⟨Role.assistant, "a"⟩] ∧
    (clear_click_apply ⟨[⟨Role.user, "q"⟩, ⟨Role.assistant, "a"⟩], "",
        [⟨Role.user, "q"⟩, ⟨Role.assistant, "a"⟩]⟩).state ≠ initial_state ∧
    (clear_click_apply ⟨[⟨Role.user, "q"⟩, ⟨Role.assistant, "a"⟩], "",
        [⟨Role.user, "q"⟩, ⟨Role.assistant, "a"⟩]⟩).chatbot = [] ∧
    (process_input effOk initTutorSt "next"
        (some (clear_click_apply ⟨[⟨Role.user, "q"⟩, ⟨Role.assistant, "a"⟩], "",
          [⟨Role.user, "q"⟩, ⟨Role.assistant, "a"⟩]⟩).state) 1 1 1 1).2.1 =
      some [⟨Role.user, "q"⟩, ⟨Role.assistant, "a"⟩,
            ⟨Role.user, "next"⟩, ⟨Role.assistant, "raw"⟩] := by
  refine ⟨rfl, ?_, rfl, ?_⟩
  · decide
  · rfl

/-- Claim C4: on an empty or whitespace-only message, `process_input`
leaves the tutor state untouched (so no backend call is issued and no
preference update happens), returns the history exactly as given, and
returns the fixed instructional text. -/
theorem empty_message_local (eff : TurnEffects) (st : TutorSt) (m : String)
    (h : Option History) (cr mk ps db : ℚ)
    (hm : m.data.all isPySpace = true) :
    process_input eff st m h cr mk ps db = (st, (h, instructionalMsg)) := by
  have hg : pyStrip m = "" := pyStrip_eq_empty_of_all m hm
  simp [process_input, process_input_body, hg]

/-- Witness for claim C4 at the whitespace message consisting of one
space, with a nonempty prior history. -/
theorem empty_message_local_witness :
    process_input effOk initTutorSt " " (some [⟨Role.user, "q"⟩]) 1 1 1 1 =
      (initTutorSt, (some [⟨Role.user, "q"⟩], instructionalMsg)) :=
  empty_message_local effOk initTutorSt " " (some [⟨Role.user, "q"⟩]) 1 1 1 1
    (by decide)

/-- Claim C5: when any effectful step of the turn raises — the
preference update, the backend call, or the formatting of a received
response — `process_input` returns the fixed generic error text, and the
history it returns is the incoming one with nothing appended (a `None`
history becoming `[]`). -/
theorem backend_failure_generic (eff : TurnEffects) (st : TutorSt) (m : String)
    (h : Option History) (cr mk ps db : ℚ)
    (hm : pyStrip m ≠ "")
    (hfail : eff.prefUpdate = Except.error () ∨ eff.call = Except.error () ∨
      ∃ r, eff.call = Except.ok r ∧ eff.fmt r = Except.error ()) :
    (process_input eff st m h cr mk ps db).2 = (some (h.getD []), genericErrorMsg) := by
  rcases hfail with hp | hc | ⟨r, hc, hf⟩
  · simp [process_input, process_input_body, hm, hp, except_branch]
  · cases hpu : eff.prefUpdate with
    | error e => simp [process_input, process_input_body, hm, hpu, except_branch]
    | ok u => simp [process_input, process_input_body, hm, hpu, hc, except_branch]
  · cases hpu : eff.prefUpdate with
    | error e => simp [process_input, process_input_body, hm, hpu, except_branch]
    | ok u => simp [process_input, process_input_body, hm, hpu, hc, hf, except_branch]

/-- Witness for claim C5: the backend call raises on a nonempty message
and a one-turn history; nothing is appended. -/
theorem backend_failure_generic_witness :
    (process_input effFail initTutorSt "case" (some [⟨Role.user, "q"⟩]) 1 1 1 1).2 =
      (some [⟨Role.user, "q"⟩], genericErrorMsg) :=
  backend_failure_generic effFail initTutorSt "case" (some [⟨Role.user, "q"⟩]) 1 1 1 1
    (by decide) (Or.inr (Or.inl rfl))

/-- Claim C6: a successful turn on history `[]` with a nonempty message
appends exactly the user turn carrying the submitted message followed by
the assistant turn carrying the formatted backend response, and nothing
else; the textbox is cleared. -/
theorem success_appends_pair (eff : TurnEffects) (st : TutorSt)
    (m raw formatted : String) (cr mk ps db : ℚ)
    (hm : pyStrip m ≠ "") (hp : eff.prefUpdate = Except.ok ())
    (hc : eff.call = Except.ok raw) (hf : eff.fmt raw = Except.ok formatted) :
    (process_input eff st m (some []) cr mk ps db).2 =
      (some [⟨Role.user, m⟩, ⟨Role.assistant, formatted⟩], "") := by
  simp [process_input, process_input_body, hm, hp, hc, hf]

/-- Witness for claim C6 at the message of the spec's test property. -/
theorem success_appends_pair_witness :
    (process_input effOk initTutorSt "Patient presents with chest pain"
        (some []) 1 1 1 1).2 =
      (some [⟨Role.user, "Patient presents with chest pain"⟩,
             ⟨Role.assistant, "raw"⟩], "") :=
  success_appends_pair effOk initTutorSt "Patient presents with chest pain"
    "raw" "raw" 1 1 1 1 (by decide) rfl rfl rfl

/-- Claim C7 counterexample: an environment in which both required
settings are present (each set to the empty string), yet the startup
check raises the enumerated-missing-list error — `not os.getenv(var)`
treats an empty value like an unset one. -/
theorem startup_check_rejects_empty_present :
    ((fun _ => some "") : Env) "OPENROUTER_API_KEY" ≠ none ∧
    ((fun _ => some "") : Env) "API_URL" ≠ none ∧
    startup_check (fun _ => some "") =
      Except.error
        "Missing required environment variables: OPENROUTER_API_KEY, API_URL" := by
  refine ⟨by simp, by simp, rfl⟩

/-- Claim C7 amended: startup fails fatally, before any interface is
constructed, exactly when some required setting is unset or set to the
empty string; in that case the error enumerates exactly the unset-or-empty
settings; when both are set to nonempty strings no error is raised. -/
theorem startup_check_amended (env : Env) :
    (startup_check env = Except.ok () ↔
      ∀ v ∈ required_vars, getenvFalsy env v = false) ∧
    (∀ v, v ∈ missing_vars env ↔ v ∈ required_vars ∧ getenvFalsy env v = true) ∧
    (startup_check env = Except.ok () ∨
      startup_check env = Except.error
        ("Missing required environment variables: " ++ joinComma (missing_vars env))) := by
  refine ⟨?_, ?_, ?_⟩
  · constructor
    · intro hok v hv
      by_contra hfalsy
      have hmem : v ∈ missing_vars env := by
        unfold missing_vars
        exact List.mem_filter.mpr ⟨hv, by simpa using hfalsy⟩
      unfold startup_check at hok
      rcases hms : missing_vars env with _ | ⟨w, ws⟩
      · rw [hms] at hmem; exact absurd hmem (List.not_mem_nil v)
      · rw [hms] at hok; exact absurd hok (by simp)
    · intro hall
      have hms : missing_vars env = [] := by
        unfold missing_vars
        refine List.filter_eq_nil_iff.mpr ?_
        intro v hv
        simp [hall v hv]
      unfold startup_check
      rw [hms]
  · intro v
    unfold missing_vars
    constructor
    · intro hmem
      have := List.mem_filter.mp hmem
      exact ⟨this.1, by simpa using this.2⟩
    · intro hmem
      exact List.mem_filter.mpr ⟨hmem.1, by simp [hmem.2]⟩
  · unfold startup_check
    rcases hms : missing_vars env with _ | ⟨w, ws⟩
    · exact Or.inl rfl
    · exact Or.inr rfl

/-- Witness for the amended claim C7: both settings set to a nonempty
value pass the check. -/
theorem startup_check_amended_witness :
    startup_check (fun _ => some "key") = Except.ok () :=
  (startup_check_amended (fun _ => some "key")).1.mpr (by decide)

/-- The dict built by `process_input` always has exactly the four keys. -/
lemma keysOf_feedback_focus (cr mk ps db : ℚ) :
    keysOf (feedback_focus cr mk ps db) = preference_keys := rfl

/-- One interface operation preserves the four-keys shape of the stored
preference set: it either leaves the set untouched or replaces it
wholesale with a freshly built four-key dict. -/
lemma opStep_keys (st : TutorSt) (op : Op)
    (h : keysOf st.prefs = preference_keys) :
    keysOf (opStep st op).prefs = preference_keys := by
  cases op with
  | updPrefs cr mk ps db => rfl
  | procInput eff m hist cr mk ps db =>
    by_cases hg : pyStrip m = ""
    · simpa [opStep, process_input, process_input_body, hg] using h
    · cases hpu : eff.prefUpdate with
      | error e => simpa [opStep, process_input, process_input_body, hg, hpu] using h
      | ok u =>
        cases hc : eff.call with
        | error e => simp [opStep, process_input, process_input_body, hg, hpu, hc]; rfl
        | ok r =>
          cases hf : eff.fmt r with
          | error e => simp [opStep, process_input, process_input_body, hg, hpu, hc, hf]; rfl
          | ok f => simp [opStep, process_input, process_input_body, hg, hpu, hc, hf]; rfl

/-- Claim C8: starting from the construction-time defaults, after every
sequence of interface operations (turns and preference updates) the
stored preference set has exactly the four named keys, in order, and no
others; each update replaces the set wholesale with a four-key dict. -/
theorem preference_keys_invariant (ops : List Op) :
    keysOf (runOps ops).prefs = preference_keys := by
  suffices h : ∀ st, keysOf st.prefs = preference_keys →
      keysOf (ops.foldl opStep st).prefs = preference_keys from
    h initTutorSt rfl
  induction ops with
  | nil => intro st h; exact h
  | cons op rest ih => intro st h; exact ih _ (opStep_keys st op h)

/-- Claim C9: `process_input` never propagates an exception: with the
handler in place the call is `Except.ok` on every input and oracle, and
whenever the `try` block raises, the returned text is the generic error
text and the returned history is the incoming one (with `None` replaced
by `[]`). -/
theorem process_input_total (eff : TurnEffects) (st : TutorSt) (m : String)
    (h : Option History) (cr mk ps db : ℚ) :
    process_input_exc eff st m h cr mk ps db =
      Except.ok (process_input eff st m h cr mk ps db) ∧
    (∀ e, (process_input_body eff st m h cr mk ps db).2 = Except.error e →
      (process_input eff st m h cr mk ps db).2 = (some (h.getD []), genericErrorMsg)) := by
  constructor
  · unfold process_input_exc process_input
    rcases hb : process_input_body eff st m h cr mk ps db with ⟨st2, r⟩
    cases r <;> simp
  · intro e he
    unfold process_input
    rcases hb : process_input_body eff st m h cr mk ps db with ⟨st2, r⟩
    rw [hb] at he
    cases r with
    | ok v => exact absurd he (by simp)
    | error e2 => simp [except_branch]

/-- Witness for claim C9 at a failing backend call. -/
theorem process_input_total_witness :
    process_input_exc effFail initTutorSt "case" none 1 1 1 1 =
      Except.ok (process_input effFail initTutorSt "case" none 1 1 1 1) ∧
    (process_input effFail initTutorSt "case" none 1 1 1 1).2 =
      (some [], genericErrorMsg) :=
  ⟨(process_input_total effFail initTutorSt "case" none 1 1 1 1).1,
   (process_input_total effFail initTutorSt "case" none 1 1 1 1).2 () rfl⟩

/-- Claim C10: with a `None` history, the empty-message path returns the
`None` history unchanged (no normalization), while the nonempty-message
paths (success or failure) always return a real list. -/
theorem none_history_paths (eff : TurnEffects) (st : TutorSt) (m : String)
    (cr mk ps db : ℚ) :
    (pyStrip m = "" →
      (process_input eff st m none cr mk ps db).2 = (none, instructionalMsg)) ∧
    (pyStrip m ≠ "" →
      ∃ l : History, (process_input eff st m none cr mk ps db).2.1 = some l) := by
  constructor
  · intro hg
    simp [process_input, process_input_body, hg]
  · intro hg
    cases hpu : eff.prefUpdate with
    | error e =>
      exact ⟨[], by simp [process_input, process_input_body, hg, hpu, except_branch]⟩
    | ok u =>
      cases hc : eff.call with
      | error e =>
        exact ⟨[], by simp [process_input, process_input_body, hg, hpu, hc, except_branch]⟩
      | ok r =>
        cases hf : eff.fmt r with
        | error e =>
          exact ⟨[], by simp [process_input, process_input_body, hg, hpu, hc, hf, except_branch]⟩
        | ok f =>
          exact ⟨[⟨Role.user, m⟩, ⟨Role.assistant, f⟩],
            by simp [process_input, process_input_body, hg, hpu, hc, hf]⟩

/-- Witness for claim C10: the empty message keeps the `None` history;
the nonempty message on the same oracle yields a real list. -/
theorem none_history_paths_witness :
    (process_input effOk initTutorSt "" none 1 1 1 1).2 = (none, instructionalMsg) ∧
    ∃ l : History, (process_input effOk initTutorSt "x" none 1 1 1 1).2.1 = some l :=
  ⟨(none_history_paths effOk initTutorSt "" 1 1 1 1).1 rfl,
   (none_history_paths effOk initTutorSt "x" 1 1 1 1).2 (by decide)⟩

end WardBuddy
